import Mathlib

/-!
Shallow embedding of the lifedebugger generation-and-enrichment pipeline.

The repository is a React/TypeScript single-page app.  The embedding below
translates, from the source:

* the data model of src/types.ts (SuggestionItem, SearchResult, LogEntry,
  Attachment, the structured response schemas);
* the rate-limited enrichment scheduler: triggerAutoGeneration and its
  mount/update effect in src/pages/ReportPage.tsx (the per-item retry loop,
  the 4000 ms cooldown, the 12000 + retries * 2000 ms backoff, the
  isAutoGenerating guard, progress counters, log emission);
* the result-document operations embedded in the handlers of the Home
  component (handleSearch's create and load-more branches, handleFileSelect,
  handleItemClick) and the detail patch (attachDetail) of the scheduler;
* the history upsert addToHistory and the restore path of the App component.

Network calls are modelled by passing the remote outcome as an explicit
function (item id and attempt number to an Except of RemoteError and
ItemDetails, mirroring that analyzeSpecificItem either returns parsed
details or throws).  UUID generation is an explicit supply of strings
indexed by a fresh counter, and Date.now is an explicit constant.  Each
issued network request and each awaited delay is recorded in an explicit
event trace so that cadence and retry behaviour can be stated.
-/

namespace LD

/-- Mirrors enum Language in src/types.ts. -/
inductive Language where
  | vi
  | en
deriving Repr, DecidableEq

/-- Mirrors interface ItemDetails in src/types.ts. -/
structure ItemDetails where
  analysis : String
  steps : List String
  risks : String
deriving Repr, DecidableEq

/-- Mirrors interface SuggestionItem in src/types.ts; the optional details
field is populated on demand. -/
structure SuggestionItem where
  id : String
  title : String
  description : String
  details : Option ItemDetails := none
deriving Repr, DecidableEq

/-- Mirrors interface SearchResult in src/types.ts (the result document). -/
structure SearchResult where
  id : String
  query : String
  timestamp : Nat
  suggestions : List SuggestionItem
  roastCommentary : String
  sources : List String
  promptSuggestion : Option String := none
  bestModel : Option String := none
deriving Repr, DecidableEq

/-- Mirrors the severity union of LogEntry.type in src/types.ts. -/
inductive LogType where
  | info
  | error
  | warning
  | system
deriving Repr, DecidableEq

/-- Mirrors interface LogEntry in src/types.ts. -/
structure LogEntry where
  id : String
  timestamp : Nat
  type : LogType
  message : String
  details : Option String := none
deriving Repr, DecidableEq

/-- Mirrors the kind union of Attachment.type in src/types.ts. -/
inductive AttachmentType where
  | file
  | link
deriving Repr, DecidableEq

/-- Mirrors interface Attachment in src/types.ts. -/
structure Attachment where
  type : AttachmentType
  content : String
  mimeType : Option String := none
  name : Option String := none
deriving Repr, DecidableEq

/-- One entry of GeminiResponseSchema.suggestions in src/types.ts. -/
structure BroadSuggestion where
  title : String
  description : String
deriving Repr, DecidableEq

/-- Mirrors interface GeminiResponseSchema in src/types.ts (the parsed
broad-analysis response). -/
structure GeminiResponseSchema where
  suggestions : List BroadSuggestion
  roast : String
  sources : List String
  promptSuggestion : String
  bestModel : String
deriving Repr, DecidableEq

/-- A thrown remote-service error as inspected by the catch blocks: an
optional HTTP-like status together with a message string (e.status and
e.message in the TypeScript). -/
structure RemoteError where
  status : Option Nat
  message : String
deriving Repr, DecidableEq

/-- Whether the pattern list occurs at the head of the list. -/
def listStartsWith {α : Type} [DecidableEq α] : List α → List α → Bool
  | _, [] => true
  | [], _ :: _ => false
  | a :: as, b :: bs => decide (a = b) && listStartsWith as bs

/-- Whether the pattern list occurs contiguously anywhere in the list. -/
def listIncludes {α : Type} [DecidableEq α] (pat : List α) : List α → Bool
  | [] => listStartsWith ([] : List α) pat
  | a :: rest => listStartsWith (a :: rest) pat || listIncludes pat rest

/-- JavaScript String.prototype.includes, on the underlying characters. -/
def strIncludes (s pat : String) : Bool :=
  listIncludes pat.data s.data

/-- The rate-limit classification of ReportPage.tsx line 93:
e.message?.includes('429') or e.message?.includes('quota') or
e.status === 429. -/
def isRateLimitError (e : RemoteError) : Bool :=
  strIncludes e.message "429" || strIncludes e.message "quota"
    || decide (e.status = some 429)

/-- An observable step of the scheduler: an awaited delay of the given
number of milliseconds, or a network request (a call of
analyzeSpecificItem) for the item with the given id. -/
inductive Event where
  | wait (ms : Nat)
  | request (itemId : String)
deriving Repr, DecidableEq

/-- The history upsert of the App component (addToHistory): findIndex by
document id; when found, replace that entry in place, otherwise append. -/
def addToHistory (result : SearchResult) (prev : List SearchResult) :
    List SearchResult :=
  match prev.findIdx? (fun p => decide (p.id = result.id)) with
  | some i => prev.set i result
  | none => prev ++ [result]

/-- The detail patch applied by the scheduler on a successful fetch
(ReportPage.tsx lines 84-90): map over the suggestions, replacing the
details of the item whose id matches. -/
def attachDetail (doc : SearchResult) (itemId : String) (d : ItemDetails) :
    SearchResult :=
  { doc with
    suggestions := doc.suggestions.map fun s =>
      if s.id = itemId then { s with details := some d } else s }

/-- The load-more merge of handleSearch (isLoadMore branch): new suggestions
appended after the existing ones, sources concatenated, commentary, prompt
suggestion and best model replaced by the latest response's values. -/
def appendPage (doc : SearchResult) (response : GeminiResponseSchema)
    (newSuggestions : List SuggestionItem) : SearchResult :=
  { doc with
    suggestions := doc.suggestions ++ newSuggestions,
    roastCommentary := response.roast,
    sources := doc.sources ++ response.sources,
    promptSuggestion := some response.promptSuggestion,
    bestModel := some response.bestModel }

/-- The fresh SuggestionItem list built by handleSearch from a parsed
response: each suggestion gets a generated uuid and starts without
details.  uuid is the explicit id supply, start its first unused index. -/
def mkNewSuggestions (uuid : Nat → String) (start : Nat)
    (suggestions : List BroadSuggestion) : List SuggestionItem :=
  suggestions.enum.map fun p =>
    { id := uuid (start + p.1), title := p.2.title,
      description := p.2.description, details := none }

/-- State of the ReportPage component together with the App-level state it
reads and writes while a drain run executes: the current result document
(currentResultRef), the history list, the activity log, the
isAutoGenerating guard, the genProgress counters, plus the explicit event
trace and the fresh-uuid counter of the model. -/
structure ReportState where
  doc : Option SearchResult
  history : List SearchResult
  logs : List LogEntry
  events : List Event
  isAutoGenerating : Bool
  progressCurrent : Nat
  progressTotal : Nat
  fresh : Nat
deriving Repr, DecidableEq

/-- Append one structured log entry (addLog in the App component), drawing
the entry id from the uuid supply at the current fresh counter. -/
def addRLog (uuid : Nat → String) (now : Nat) (ty : LogType) (msg : String)
    (det : Option String) (st : ReportState) : ReportState :=
  { st with
    logs := st.logs ++
      [{ id := uuid st.fresh, timestamp := now, type := ty, message := msg,
         details := det }],
    fresh := st.fresh + 1 }

/-- updateResult as wired by the App component (updateCurrentResult):
publish the new document version and upsert it into the history. -/
def updateResult (r : SearchResult) (st : ReportState) : ReportState :=
  { st with doc := some r, history := addToHistory r st.history }

/-- maxRetries of triggerAutoGeneration. -/
def maxRetries : Nat := 3

/-- The inner while loop of triggerAutoGeneration for one item, starting at
the given retries count: while not successful and retries < maxRetries,
issue the request; on success patch the latest document and upsert it into
history; on a rate-limited failure increment retries, log a warning and
await 12000 + retries * 2000 ms before retrying; on any other failure log
an error and break. -/
def processItem (uuid : Nat → String) (now : Nat)
    (client : String → Nat → Except RemoteError ItemDetails)
    (item : SuggestionItem) (retries : Nat) (st : ReportState) :
    ReportState :=
  if _h : retries < maxRetries then
    let st1 := { st with events := st.events ++ [Event.request item.id] }
    match client item.id retries with
    | Except.ok d =>
        match st1.doc with
        | some doc => updateResult (attachDetail doc item.id d) st1
        | none => st1
    | Except.error e =>
        if isRateLimitError e then
          let r := retries + 1
          let waitTime := 12000 + r * 2000
          let msg := "Rate Limit (429) hit. Cooling down " ++
            toString (waitTime / 1000) ++ "s... (Retry " ++ toString r ++
            "/" ++ toString maxRetries ++ ")"
          let st2 := addRLog uuid now LogType.warning
            ("Quota Exceeded for \"" ++ item.title ++ "\". Pausing...")
            (some msg) st1
          let st3 := { st2 with events := st2.events ++ [Event.wait waitTime] }
          processItem uuid now client item r st3
        else
          addRLog uuid now LogType.error
            ("Failed to generate: " ++ item.title) (some e.message) st1
  else st
termination_by maxRetries - retries
decreasing_by omega

/-- The for loop of triggerAutoGeneration over the captured batch, carrying
the loop index i: before each item after the first, await the fixed 4000 ms
cooldown; process the item; then advance genProgress.current to i + 1. -/
def drainLoop (uuid : Nat → String) (now : Nat)
    (client : String → Nat → Except RemoteError ItemDetails) :
    List SuggestionItem → Nat → ReportState → ReportState
  | [], _, st => st
  | item :: rest, i, st =>
      let st1 := if i > 0 then
          { st with events := st.events ++ [Event.wait 4000] }
        else st
      let st2 := processItem uuid now client item 0 st1
      let st3 := { st2 with progressCurrent := i + 1 }
      drainLoop uuid now client rest (i + 1) st3

/-- triggerAutoGeneration of ReportPage.tsx: return immediately when a run
is already active; otherwise raise the guard, reset the progress counters,
log the run start, drain the captured batch, then clear the guard and log
completion. -/
def triggerAutoGeneration (uuid : Nat → String) (now : Nat)
    (client : String → Nat → Except RemoteError ItemDetails)
    (items : List SuggestionItem) (st : ReportState) : ReportState :=
  if st.isAutoGenerating then st
  else
    let st1 := { st with
      isAutoGenerating := true, progressCurrent := 0,
      progressTotal := items.length }
    let st2 := addRLog uuid now LogType.system
      "Report Page: Auto-Generation Started"
      (some ("Queueing " ++ toString items.length ++
        " items with rate limiting...")) st1
    let st3 := drainLoop uuid now client items 0 st2
    let st4 := { st3 with isAutoGenerating := false }
    addRLog uuid now LogType.system "Report Page: Generation Queue Complete"
      none st4

/-- The mount/update effect of ReportPage.tsx (lines 37-45): when a current
result exists and no run is active, collect the suggestions still lacking
details and, when there are any, trigger auto-generation for them. -/
def autoGenEffect (uuid : Nat → String) (now : Nat)
    (client : String → Nat → Except RemoteError ItemDetails)
    (st : ReportState) : ReportState :=
  match st.doc with
  | some doc =>
      if st.isAutoGenerating then st
      else
        let missing := doc.suggestions.filter fun s => s.details.isNone
        if missing.length > 0 then
          triggerAutoGeneration uuid now client missing st
        else st
  | none => st

/-- Whether an observable step is a network request. -/
def Event.isRequest : Event → Bool
  | Event.request _ => true
  | Event.wait _ => false

/-- The expected event trace of a drain run in which every request succeeds
at the first attempt, starting at loop index i. -/
def happyTrace : List SuggestionItem → Nat → List Event
  | [], _ => []
  | item :: rest, i =>
      (if i > 0 then [Event.wait 4000] else []) ++
        Event.request item.id :: happyTrace rest (i + 1)

/-- State of the Home component together with the App-level state its
handlers read and write: the input query, the staged attachment, the
current result document, the history, the activity log, the user-visible
error, the loading flags and the modal state, plus the explicit list of
issued network requests and the fresh-uuid counter of the model. -/
structure HomeState where
  query : String
  attachment : Option Attachment
  currentResult : Option SearchResult
  history : List SearchResult
  logs : List LogEntry
  error : Option String
  isLoading : Bool
  loadingItemId : Option String
  selectedItem : Option SuggestionItem
  isModalOpen : Bool
  showAttachMenu : Bool
  netRequests : List String
  fresh : Nat
deriving Repr, DecidableEq

/-- Append one structured log entry from a Home handler (addLog of the App
component), drawing the entry id from the uuid supply. -/
def addHLog (uuid : Nat → String) (now : Nat) (ty : LogType) (msg : String)
    (det : Option String) (st : HomeState) : HomeState :=
  { st with
    logs := st.logs ++
      [{ id := uuid st.fresh, timestamp := now, type := ty, message := msg,
         details := det }],
    fresh := st.fresh + 1 }

/-- The 5 MiB attachment ceiling of handleFileSelect. -/
def maxFileSize : Nat := 5 * 1024 * 1024

/-- A file as seen by handleFileSelect: its byte size, the base64 content
produced by the FileReader, its mime type and its name. -/
structure FileInput where
  size : Nat
  base64Content : String
  mimeType : String
  name : String
deriving Repr, DecidableEq

/-- handleFileSelect of the Home component: no selected file is a no-op; a
file larger than 5 * 1024 * 1024 bytes only sets the user-visible error and
returns before any staging; otherwise the file is staged as the attachment,
the attach menu closes and the error is cleared. -/
def handleFileSelect (language : Language) (file : Option FileInput)
    (st : HomeState) : HomeState :=
  match file with
  | none => st
  | some f =>
      if f.size > 5 * 1024 * 1024 then
        { st with
          error := some (match language with
            | Language.vi => "File quá lớn (>5MB)"
            | Language.en => "File too large (>5MB)") }
      else
        { st with
          attachment := some
            { type := AttachmentType.file, content := f.base64Content,
              mimeType := some f.mimeType, name := some f.name },
          showAttachMenu := false,
          error := none }

/-- The message the catch block of handleSearch surfaces:
err.message falling back to a fixed string when the message is empty. -/
def searchErrorMessage (e : RemoteError) : String :=
  if e.message = "" then "Unknown error occurred" else e.message

/-- handleSearch of the Home component, with the outcome of the single
analyzeIssue call passed in explicitly.  Empty query with no attachment
returns before any request.  Otherwise the info log is appended and the
request issued; on failure the error is surfaced and an error log appended,
leaving the current result and the history untouched; on success the
load-more branch appends a page to the existing document (appendPage) and
the fresh branch builds a new document, in both cases publishing it and
upserting it into the history, then appending a success log. -/
def handleSearch (uuid : Nat → String) (now : Nat)
    (response : Except RemoteError GeminiResponseSchema) (isLoadMore : Bool)
    (st : HomeState) : HomeState :=
  if st.query.trim = "" && st.attachment = none then st
  else
    let st1 := { st with isLoading := true, error := none }
    let st2 := addHLog uuid now LogType.info
      (if isLoadMore then "Loading more for: " ++ st1.query
       else "New search: " ++ st1.query)
      (match st1.attachment with
       | some a => some ("With attachment: " ++ a.name.getD "undefined")
       | none => none) st1
    let st3 := { st2 with netRequests := st2.netRequests ++ ["analyzeIssue"] }
    match response with
    | Except.error err =>
        let st4 := { st3 with error := some (searchErrorMessage err) }
        let st5 := addHLog uuid now LogType.error "Analysis Failed"
          (some err.message) st4
        { st5 with isLoading := false }
    | Except.ok resp =>
        let newSuggestions := mkNewSuggestions uuid st3.fresh resp.suggestions
        let st4 := { st3 with fresh := st3.fresh + resp.suggestions.length }
        let st5 :=
          match isLoadMore, st4.currentResult with
          | true, some doc =>
              let updated := appendPage doc resp newSuggestions
              { st4 with currentResult := some updated,
                         history := addToHistory updated st4.history }
          | _, _ =>
              let newResult : SearchResult :=
                { id := uuid st4.fresh,
                  query := if st4.query = "" then
                      (match st4.attachment with
                       | some a => "Analyzed: " ++ a.name.getD "undefined"
                       | none => "Unknown Query")
                    else st4.query,
                  timestamp := now,
                  suggestions := newSuggestions,
                  roastCommentary := resp.roast,
                  sources := resp.sources,
                  promptSuggestion := some resp.promptSuggestion,
                  bestModel := some resp.bestModel }
              { st4 with fresh := st4.fresh + 1,
                         currentResult := some newResult,
                         history := addToHistory newResult st4.history }
        let st6 := addHLog uuid now LogType.system "Gemini API Success"
          (some ("Generated " ++ toString newSuggestions.length ++ " items"))
          st5
        { st6 with isLoading := false }

/-- handleItemClick of the Home component, with the outcome of the single
analyzeSpecificItem call passed in explicitly.  A click while another item
is loading is ignored; a click on an item whose details are already present
opens the modal without issuing any request; otherwise one request is
issued, and on success the item is patched into the current result, the
updated document upserted into history and the modal opened, while on
failure the error is surfaced and logged. -/
def handleItemClick (uuid : Nat → String) (now : Nat) (language : Language)
    (response : Except RemoteError ItemDetails) (item : SuggestionItem)
    (st : HomeState) : HomeState :=
  if st.loadingItemId.isSome then st
  else if item.details.isSome then
    { st with selectedItem := some item, isModalOpen := true }
  else
    let st1 := { st with loadingItemId := some item.id }
    let st2 := addHLog uuid now LogType.info
      ("Fetching details for item: " ++ item.title) none st1
    let st3 := { st2 with netRequests := st2.netRequests ++ [item.id] }
    match response with
    | Except.ok d =>
        let st4 :=
          match st3.currentResult with
          | some doc =>
              let updated := attachDetail doc item.id d
              let st4a := { st3 with currentResult := some updated,
                                     history := addToHistory updated st3.history }
              match updated.suggestions.find?
                  (fun (s : SuggestionItem) => decide (s.id = item.id)) with
              | some updatedItem =>
                  { st4a with selectedItem := some updatedItem,
                              isModalOpen := true }
              | none => st4a
          | none => st3
        { st4 with loadingItemId := none }
    | Except.error e =>
        let st4 := { st3 with
          error := some (match language with
            | Language.vi => "Lỗi tải chi tiết"
            | Language.en => "Failed to load details") }
        let st5 := addHLog uuid now LogType.error "Detail Fetch Failed"
          (some e.message) st4
        { st5 with loadingItemId := none }

/-- The restore path: handleRestore of the App component publishes the
history item as the current result, and the restoration effect of the Home
component copies its query into the input and clears any staged
attachment. -/
def handleRestore (uuid : Nat → String) (now : Nat) (item : SearchResult)
    (st : HomeState) : HomeState :=
  let st1 := addHLog uuid now LogType.info "Restored history item"
    (some ("ID: " ++ item.id)) st
  { st1 with currentResult := some item, query := item.query,
             attachment := none }

/-! Shared helper lemmas. -/

/-- Setting an index of a list to the value already stored there leaves the
list unchanged. -/
theorem set_self_of_getElem {α : Type} (l : List α) (i : Nat) (a : α)
    (hi : i < l.length) (ha : l[i] = a) : l.set i a = l := by
  apply List.ext_getElem (by simp)
  intro n h1 h2
  rcases eq_or_ne i n with rfl | hne
  · rw [List.getElem_set_self, ha]
  · rw [List.getElem_set_ne hne]

/-- The items built from a parsed response carry exactly the response's
titles and descriptions, in order. -/
theorem mkNewSuggestions_titles (uuid : Nat → String) (k : Nat)
    (l : List BroadSuggestion) :
    (mkNewSuggestions uuid k l).map (fun s => (s.title, s.description)) =
      l.map (fun b => (b.title, b.description)) := by
  unfold mkNewSuggestions
  rw [List.map_map]
  have h1 : ((fun s : SuggestionItem => (s.title, s.description)) ∘
      fun p : Nat × BroadSuggestion =>
        ({ id := uuid (k + p.1), title := p.2.title,
           description := p.2.description, details := none } : SuggestionItem))
      = (fun b : BroadSuggestion => (b.title, b.description)) ∘ Prod.snd := rfl
  rw [h1, ← List.map_map]
  have h2 : l.enum.map Prod.snd = l := List.enumFrom_map_snd 0 l
  rw [h2]

/-- The items built from a parsed response all start without details. -/
theorem mkNewSuggestions_details_none (uuid : Nat → String) (k : Nat)
    (l : List BroadSuggestion) :
    ∀ s ∈ mkNewSuggestions uuid k l, s.details = none := by
  intro s hs
  unfold mkNewSuggestions at hs
  rcases List.mem_map.mp hs with ⟨p, _, rfl⟩
  rfl

/-- The upserted document is a member of the upserted history. -/
theorem mem_addToHistory_self (d : SearchResult) (prev : List SearchResult) :
    d ∈ addToHistory d prev := by
  unfold addToHistory
  cases h : prev.findIdx? (fun p => decide (p.id = d.id)) with
  | none => simp
  | some i =>
      rcases List.findIdx?_eq_some_iff_getElem.mp h with ⟨hi, _, _⟩
      exact List.mem_set prev i hi d

/-- Upserting a document whose identity is already present does not change
the history's length. -/
theorem addToHistory_length_of_mem (d : SearchResult)
    (l : List SearchResult) (hx : ∃ x ∈ l, x.id = d.id) :
    (addToHistory d l).length = l.length := by
  rcases hx with ⟨x, hmem, hxid⟩
  have hany : l.any (fun p => decide (p.id = d.id)) = true := by
    refine List.any_eq_true.mpr ⟨x, hmem, ?_⟩
    simp [hxid]
  have hsome : (l.findIdx? (fun p => decide (p.id = d.id))).isSome := by
    rw [List.findIdx?_isSome, hany]
  rcases Option.isSome_iff_exists.mp hsome with ⟨i, hi⟩
  unfold addToHistory
  rw [hi, List.length_set]

/-- Upserting the same document twice is the same as upserting it once. -/
theorem addToHistory_idem (d : SearchResult) (prev : List SearchResult) :
    addToHistory d (addToHistory d prev) = addToHistory d prev := by
  cases h : prev.findIdx? (fun p => decide (p.id = d.id)) with
  | none =>
      have hL : addToHistory d prev = prev ++ [d] := by
        unfold addToHistory
        rw [h]
      have hfind : (prev ++ [d]).findIdx? (fun p => decide (p.id = d.id)) =
          some prev.length := by
        apply List.findIdx?_eq_some_iff_getElem.mpr
        have hlen : prev.length < (prev ++ [d]).length := by simp
        refine ⟨hlen, ?_, ?_⟩
        · rw [List.getElem_concat_length prev d prev.length rfl hlen]
          simp
        · intro j hj
          have hj1 : j < prev.length := hj
          have hj2 : j < (prev ++ [d]).length := by
            simp
            omega
          have happ : (prev ++ [d]).get ⟨j, hj2⟩ = prev.get ⟨j, hj1⟩ := by
            rw [List.get_eq_getElem, List.get_eq_getElem]
            exact List.getElem_append_left hj1
          rw [show ((prev ++ [d])[j]) = (prev ++ [d]).get ⟨j, hj2⟩ from rfl,
            happ]
          rw [List.get_eq_getElem]
          have hnot := List.findIdx?_eq_none_iff.mp h prev[j]
            (prev.getElem_mem hj1)
          simp only [hnot]
          simp
      rw [hL]
      unfold addToHistory
      rw [hfind]
      apply set_self_of_getElem
      exact List.getElem_concat_length prev d prev.length rfl (by simp)
  | some i =>
      have hL : addToHistory d prev = prev.set i d := by
        unfold addToHistory
        rw [h]
      rcases List.findIdx?_eq_some_iff_getElem.mp h with ⟨hi, hpi, hmin⟩
      have hfind : (prev.set i d).findIdx? (fun p => decide (p.id = d.id)) =
          some i := by
        apply List.findIdx?_eq_some_iff_getElem.mpr
        have hlen : i < (prev.set i d).length := by simpa using hi
        refine ⟨hlen, ?_, ?_⟩
        · rw [List.getElem_set_self hlen]
          simp
        · intro j hj
          have hj' : j < prev.length := by
            have := hlen
            simp at this
            omega
          have hne : i ≠ j := by omega
          rw [List.getElem_set_ne hne]
          exact hmin j hj
      rw [hL]
      unfold addToHistory
      rw [hfind]
      exact List.set_set d d prev i

/-- A successful attempt below the retry ceiling records the request, ends
the retry loop, and patches and publishes the latest document. -/
theorem processItem_ok (uuid : Nat → String) (now : Nat)
    (client : String → Nat → Except RemoteError ItemDetails)
    (item : SuggestionItem) (retries : Nat) (st : ReportState)
    (hr : retries < maxRetries) (d : ItemDetails)
    (hc : client item.id retries = Except.ok d) :
    processItem uuid now client item retries st =
      match st.doc with
      | some doc => updateResult (attachDetail doc item.id d)
          { st with events := st.events ++ [Event.request item.id] }
      | none => { st with events := st.events ++ [Event.request item.id] } := by
  rw [processItem]
  rw [dif_pos hr, hc]

/-- A rate-limited failure below the retry ceiling records the request,
logs a warning, waits 12000 + (retries + 1) * 2000 ms and recurses with the
incremented retry counter. -/
theorem processItem_rate_limited (uuid : Nat → String) (now : Nat)
    (client : String → Nat → Except RemoteError ItemDetails)
    (item : SuggestionItem) (retries : Nat) (st : ReportState)
    (hr : retries < maxRetries) (e : RemoteError)
    (hc : client item.id retries = Except.error e)
    (hrl : isRateLimitError e = true) :
    processItem uuid now client item retries st =
      processItem uuid now client item (retries + 1)
        { st with
          events := (st.events ++ [Event.request item.id]) ++
            [Event.wait (12000 + (retries + 1) * 2000)],
          logs := st.logs ++
            [{ id := uuid st.fresh, timestamp := now,
               type := LogType.warning,
               message := "Quota Exceeded for \"" ++ item.title ++
                 "\". Pausing...",
               details := some ("Rate Limit (429) hit. Cooling down " ++
                 toString ((12000 + (retries + 1) * 2000) / 1000) ++
                 "s... (Retry " ++ toString (retries + 1) ++ "/" ++
                 toString maxRetries ++ ")") }],
          fresh := st.fresh + 1 } := by
  conv_lhs => rw [processItem]
  rw [dif_pos hr, hc]
  simp only [hrl]
  rfl

/-- A non-rate-limited failure below the retry ceiling records the request,
logs the failure and abandons the item immediately: no wait and no retry. -/
theorem processItem_abandon (uuid : Nat → String) (now : Nat)
    (client : String → Nat → Except RemoteError ItemDetails)
    (item : SuggestionItem) (retries : Nat) (st : ReportState)
    (hr : retries < maxRetries) (e : RemoteError)
    (hc : client item.id retries = Except.error e)
    (hrl : isRateLimitError e = false) :
    processItem uuid now client item retries st =
      { st with
        events := st.events ++ [Event.request item.id],
        logs := st.logs ++
          [{ id := uuid st.fresh, timestamp := now, type := LogType.error,
             message := "Failed to generate: " ++ item.title,
             details := some e.message }],
        fresh := st.fresh + 1 } := by
  rw [processItem]
  rw [dif_pos hr, hc]
  simp only [hrl]
  rfl

/-- When the retry counter has reached the ceiling the loop exits and the
item is abandoned with the state unchanged. -/
theorem processItem_exhausted (uuid : Nat → String) (now : Nat)
    (client : String → Nat → Except RemoteError ItemDetails)
    (item : SuggestionItem) (retries : Nat) (st : ReportState)
    (hr : ¬ retries < maxRetries) :
    processItem uuid now client item retries st = st := by
  rw [processItem]
  rw [dif_neg hr]

/-- Gas-indexed frame lemma for the retry loop: it never touches the guard
or the progress counters, and it only appends events, each of which is a
request for this very item or a wait. -/
theorem processItem_frame_gas (uuid : Nat → String) (now : Nat)
    (client : String → Nat → Except RemoteError ItemDetails)
    (item : SuggestionItem) :
    ∀ g retries st, maxRetries - retries ≤ g →
      (processItem uuid now client item retries st).isAutoGenerating
          = st.isAutoGenerating ∧
      (processItem uuid now client item retries st).progressCurrent
          = st.progressCurrent ∧
      (processItem uuid now client item retries st).progressTotal
          = st.progressTotal ∧
      ∃ tail, (processItem uuid now client item retries st).events
          = st.events ++ tail ∧
        ∀ ev ∈ tail, ev = Event.request item.id ∨ ∃ w, ev = Event.wait w := by
  intro g
  induction g with
  | zero =>
      intro retries st hg
      have hr : ¬ retries < maxRetries := by omega
      rw [processItem_exhausted uuid now client item retries st hr]
      exact ⟨rfl, rfl, rfl, [], by simp, by simp⟩
  | succ g ih =>
      intro retries st hg
      by_cases hr : retries < maxRetries
      · cases hc : client item.id retries with
        | ok d =>
            rw [processItem_ok uuid now client item retries st hr d hc]
            cases hdoc : st.doc with
            | some doc =>
                exact ⟨rfl, rfl, rfl, [Event.request item.id], rfl,
                  by simp⟩
            | none =>
                exact ⟨rfl, rfl, rfl, [Event.request item.id], rfl,
                  by simp⟩
        | error e =>
            by_cases hrl : isRateLimitError e = true
            · rw [processItem_rate_limited uuid now client item retries st
                hr e hc hrl]
              rcases ih (retries + 1)
                  { st with
                    events := (st.events ++ [Event.request item.id]) ++
                      [Event.wait (12000 + (retries + 1) * 2000)],
                    logs := st.logs ++
                      [{ id := uuid st.fresh, timestamp := now,
                         type := LogType.warning,
                         message := "Quota Exceeded for \"" ++ item.title ++
                           "\". Pausing...",
                         details := some ("Rate Limit (429) hit. Cooling down "
                           ++ toString ((12000 + (retries + 1) * 2000) / 1000)
                           ++ "s... (Retry " ++ toString (retries + 1) ++ "/"
                           ++ toString maxRetries ++ ")") }],
                    fresh := st.fresh + 1 }
                  (by omega) with ⟨h1, h2, h3, tail, h4, h5⟩
              refine ⟨h1, h2, h3,
                [Event.request item.id,
                 Event.wait (12000 + (retries + 1) * 2000)] ++ tail, ?_, ?_⟩
              · rw [h4]
                simp
              · intro ev hev
                rcases List.mem_append.mp hev with hev | hev
                · simp only [List.mem_cons, List.mem_singleton,
                    List.not_mem_nil, or_false] at hev
                  rcases hev with rfl | rfl
                  · exact Or.inl rfl
                  · exact Or.inr ⟨_, rfl⟩
                · exact h5 ev hev
            · have hrl' : isRateLimitError e = false := by
                revert hrl
                cases isRateLimitError e <;> simp
              rw [processItem_abandon uuid now client item retries st hr e
                hc hrl']
              exact ⟨rfl, rfl, rfl, [Event.request item.id], rfl, by simp⟩
      · rw [processItem_exhausted uuid now client item retries st hr]
        exact ⟨rfl, rfl, rfl, [], by simp, by simp⟩

/-- Gas-indexed document evolution of the retry loop: the current document
is either untouched or patched once, by this item's identity. -/
theorem processItem_doc_gas (uuid : Nat → String) (now : Nat)
    (client : String → Nat → Except RemoteError ItemDetails)
    (item : SuggestionItem) :
    ∀ g retries st, maxRetries - retries ≤ g →
      (processItem uuid now client item retries st).doc = st.doc ∨
      ∃ doc dd, st.doc = some doc ∧
        (processItem uuid now client item retries st).doc
          = some (attachDetail doc item.id dd) := by
  intro g
  induction g with
  | zero =>
      intro retries st hg
      have hr : ¬ retries < maxRetries := by omega
      rw [processItem_exhausted uuid now client item retries st hr]
      exact Or.inl rfl
  | succ g ih =>
      intro retries st hg
      by_cases hr : retries < maxRetries
      · cases hc : client item.id retries with
        | ok d =>
            rw [processItem_ok uuid now client item retries st hr d hc]
            cases hdoc : st.doc with
            | some doc =>
                exact Or.inr ⟨doc, d, rfl, rfl⟩
            | none =>
                exact Or.inl rfl
        | error e =>
            by_cases hrl : isRateLimitError e = true
            · rw [processItem_rate_limited uuid now client item retries st
                hr e hc hrl]
              exact ih (retries + 1) _ (by omega)
            · have hrl' : isRateLimitError e = false := by
                revert hrl
                cases isRateLimitError e <;> simp
              rw [processItem_abandon uuid now client item retries st hr e
                hc hrl']
              exact Or.inl rfl
      · rw [processItem_exhausted uuid now client item retries st hr]
        exact Or.inl rfl

/-- The successful-run trace of the drain loop: when every item of the
batch succeeds at its first attempt, the loop appends exactly the expected
trace (one request per item in batch order, a 4000 ms cooldown before each
item after the first), leaves the guard and the total untouched, and
advances the progress counter to loop index plus batch length. -/
theorem drainLoop_all_ok (uuid : Nat → String) (now : Nat)
    (client : String → Nat → Except RemoteError ItemDetails) :
    ∀ (items : List SuggestionItem) (i : Nat) (st : ReportState),
      (∀ it ∈ items, ∃ d, client it.id 0 = Except.ok d) →
      (drainLoop uuid now client items i st).events
          = st.events ++ happyTrace items i ∧
      (drainLoop uuid now client items i st).isAutoGenerating
          = st.isAutoGenerating ∧
      (drainLoop uuid now client items i st).progressTotal
          = st.progressTotal ∧
      (drainLoop uuid now client items i st).progressCurrent
          = (if items = [] then st.progressCurrent else i + items.length) := by
  intro items
  induction items with
  | nil =>
      intro i st _
      simp [drainLoop, happyTrace]
  | cons item rest ih =>
      intro i st hok
      rcases hok item (by simp) with ⟨d, hd⟩
      have hok' : ∀ it ∈ rest, ∃ d, client it.id 0 = Except.ok d := by
        intro it hit
        exact hok it (by simp [hit])
      have hr0 : (0 : Nat) < maxRetries := by
        unfold maxRetries
        omega
      have hstep : drainLoop uuid now client (item :: rest) i st =
          drainLoop uuid now client rest (i + 1)
            { (processItem uuid now client item 0
                (if i > 0 then
                  { st with events := st.events ++ [Event.wait 4000] }
                 else st)) with progressCurrent := i + 1 } := rfl
      rw [hstep]
      set st1 : ReportState := if i > 0 then
          { st with events := st.events ++ [Event.wait 4000] }
        else st with hst1
      have hpi := processItem_ok uuid now client item 0 st1 hr0 d hd
      have hev1 : st1.events = st.events ++
          (if i > 0 then [Event.wait 4000] else []) := by
        rw [hst1]
        by_cases hi : i > 0
        · rw [if_pos hi, if_pos hi]
        · rw [if_neg hi, if_neg hi]
          simp
      have hflag1 : st1.isAutoGenerating = st.isAutoGenerating := by
        rw [hst1]
        by_cases hi : i > 0
        · rw [if_pos hi]
        · rw [if_neg hi]
      have htot1 : st1.progressTotal = st.progressTotal := by
        rw [hst1]
        by_cases hi : i > 0
        · rw [if_pos hi]
        · rw [if_neg hi]
      set st2 : ReportState := processItem uuid now client item 0 st1
        with hst2
      have hev2 : st2.events = st1.events ++ [Event.request item.id] := by
        rw [hpi]
        cases st1.doc <;> rfl
      have hflag2 : st2.isAutoGenerating = st1.isAutoGenerating := by
        rw [hpi]
        cases st1.doc <;> rfl
      have htot2 : st2.progressTotal = st1.progressTotal := by
        rw [hpi]
        cases st1.doc <;> rfl
      rcases ih (i + 1) { st2 with progressCurrent := i + 1 } hok' with
        ⟨e3, f3, t3, p3⟩
      refine ⟨?_, ?_, ?_, ?_⟩
      · rw [e3]
        show st2.events ++ happyTrace rest (i + 1)
            = st.events ++ happyTrace (item :: rest) i
        rw [hev2, hev1]
        show _ = st.events ++ ((if i > 0 then [Event.wait 4000] else []) ++
          Event.request item.id :: happyTrace rest (i + 1))
        simp
      · rw [f3]
        show st2.isAutoGenerating = _
        rw [hflag2, hflag1]
      · rw [t3]
        show st2.progressTotal = _
        rw [htot2, htot1]
      · rw [p3]
        by_cases hrest : rest = []
        · rw [if_pos hrest, if_neg (by simp : ¬ (item :: rest = []))]
          show (i + 1) = i + (item :: rest).length
          rw [hrest]
          simp
        · rw [if_neg hrest, if_neg (by simp : ¬ (item :: rest = []))]
          show (i + 1) + rest.length = i + (item :: rest).length
          simp
          omega

/-- The requests of a successful-run trace are exactly one per batch item,
in batch order. -/
theorem happyTrace_requests :
    ∀ (items : List SuggestionItem) (i : Nat),
      (happyTrace items i).filter Event.isRequest
        = items.map (fun it => Event.request it.id) := by
  intro items
  induction items with
  | nil => intro i; rfl
  | cons item rest ih =>
      intro i
      show ((if i > 0 then [Event.wait 4000] else []) ++
        Event.request item.id :: happyTrace rest (i + 1)).filter
          Event.isRequest = _
      rw [List.filter_append]
      by_cases hi : i > 0
      · rw [if_pos hi]
        show (List.filter Event.isRequest [Event.wait 4000]) ++ _ = _
        simp only [List.filter_cons, List.filter_nil]
        show List.filter Event.isRequest (Event.request item.id ::
          happyTrace rest (i + 1)) = _
        simp only [List.filter_cons]
        rw [ih (i + 1)]
        rfl
      · rw [if_neg hi]
        simp only [List.filter_nil, List.nil_append, List.filter_cons]
        rw [ih (i + 1)]
        rfl

/-- One step of the drain loop, as an equation. -/
theorem drainLoop_cons (uuid : Nat → String) (now : Nat)
    (client : String → Nat → Except RemoteError ItemDetails)
    (item : SuggestionItem) (rest : List SuggestionItem) (i : Nat)
    (st : ReportState) :
    drainLoop uuid now client (item :: rest) i st =
      drainLoop uuid now client rest (i + 1)
        { (processItem uuid now client item 0
            (if i > 0 then
              { st with events := st.events ++ [Event.wait 4000] }
             else st)) with progressCurrent := i + 1 } := rfl

/-- The empty drain loop, as an equation. -/
theorem drainLoop_nil (uuid : Nat → String) (now : Nat)
    (client : String → Nat → Except RemoteError ItemDetails) (i : Nat)
    (st : ReportState) :
    drainLoop uuid now client [] i st = st := rfl

/-- The enrichment patch keeps the suggestion list's length and every
position's identity, and leaves untouched every position whose identity
differs from the target. -/
theorem attachDetail_get (doc : SearchResult) (tid : String)
    (dd : ItemDetails) :
    (attachDetail doc tid dd).suggestions.length
        = doc.suggestions.length ∧
    ∀ j (hj : j < doc.suggestions.length)
      (hj' : j < (attachDetail doc tid dd).suggestions.length),
      ((attachDetail doc tid dd).suggestions.get ⟨j, hj'⟩).id
          = (doc.suggestions.get ⟨j, hj⟩).id ∧
      ((doc.suggestions.get ⟨j, hj⟩).id ≠ tid →
        (attachDetail doc tid dd).suggestions.get ⟨j, hj'⟩
            = doc.suggestions.get ⟨j, hj⟩) := by
  refine ⟨by simp [attachDetail], ?_⟩
  intro j hj hj'
  have hmap : (attachDetail doc tid dd).suggestions.get ⟨j, hj'⟩ =
      (fun s => if s.id = tid then { s with details := some dd } else s)
        (doc.suggestions.get ⟨j, hj⟩) := by
    simp [attachDetail, List.get_eq_getElem, List.getElem_map]
  constructor
  · rw [hmap]
    by_cases h : (doc.suggestions.get ⟨j, hj⟩).id = tid
    · simp only [List.get_eq_getElem] at h
      simp [h]
    · simp only [List.get_eq_getElem] at h
      simp [h]
  · intro hne
    rw [hmap]
    simp only [List.get_eq_getElem] at hne
    simp [hne]

/-- The retry loop keeps the current document present, and either leaves it
untouched or patches it once by the processed item's identity. -/
theorem processItem_doc_some (uuid : Nat → String) (now : Nat)
    (client : String → Nat → Except RemoteError ItemDetails)
    (item : SuggestionItem) (retries : Nat) (st : ReportState)
    (doc0 : SearchResult) (hdoc : st.doc = some doc0) :
    ∃ doc1, (processItem uuid now client item retries st).doc = some doc1 ∧
      (doc1 = doc0 ∨ ∃ dd, doc1 = attachDetail doc0 item.id dd) := by
  rcases processItem_doc_gas uuid now client item (maxRetries - retries)
      retries st (le_refl _) with h | ⟨doc, dd, h1, h2⟩
  · exact ⟨doc0, by rw [h, hdoc], Or.inl rfl⟩
  · rw [hdoc] at h1
    injection h1 with h1
    subst h1
    exact ⟨attachDetail doc0 item.id dd, h2, Or.inr ⟨dd, rfl⟩⟩

/-- Every event appended by the drain loop is a request for one of the
batch items or a wait. -/
theorem drainLoop_events_shape (uuid : Nat → String) (now : Nat)
    (client : String → Nat → Except RemoteError ItemDetails) :
    ∀ (items : List SuggestionItem) (i : Nat) (st : ReportState),
      ∃ tail, (drainLoop uuid now client items i st).events
          = st.events ++ tail ∧
        ∀ ev ∈ tail, (∃ it ∈ items, ev = Event.request it.id) ∨
          ∃ w, ev = Event.wait w := by
  intro items
  induction items with
  | nil =>
      intro i st
      exact ⟨[], by simp [drainLoop], by simp⟩
  | cons item rest ih =>
      intro i st
      rw [drainLoop_cons]
      rcases processItem_frame_gas uuid now client item maxRetries 0
          (if i > 0 then { st with events := st.events ++ [Event.wait 4000] }
           else st) (Nat.sub_le _ _) with ⟨_, _, _, tail1, he1, hm1⟩
      rcases ih (i + 1)
          { (processItem uuid now client item 0
              (if i > 0 then
                { st with events := st.events ++ [Event.wait 4000] }
               else st)) with progressCurrent := i + 1 } with
        ⟨tail2, he2, hm2⟩
      refine ⟨(if i > 0 then [Event.wait 4000] else []) ++ tail1 ++ tail2,
        ?_, ?_⟩
      · rw [he2]
        show (processItem uuid now client item 0
            (if i > 0 then
              { st with events := st.events ++ [Event.wait 4000] }
             else st)).events ++ tail2 = _
        rw [he1]
        have hev1 : (if i > 0 then
            { st with events := st.events ++ [Event.wait 4000] }
           else st : ReportState).events
            = st.events ++ (if i > 0 then [Event.wait 4000] else []) := by
          by_cases hi : i > 0
          · rw [if_pos hi, if_pos hi]
          · rw [if_neg hi, if_neg hi]
            simp
        rw [hev1]
        simp
      · intro ev hev
        rcases List.mem_append.mp hev with hev | hev
        · rcases List.mem_append.mp hev with hev | hev
          · by_cases hi : i > 0
            · rw [if_pos hi] at hev
              simp only [List.mem_singleton] at hev
              exact Or.inr ⟨_, hev⟩
            · rw [if_neg hi] at hev
              simp at hev
          · rcases hm1 ev hev with h | h
            · exact Or.inl ⟨item, by simp, h⟩
            · exact Or.inr h
        · rcases hm2 ev hev with ⟨it, hit, h⟩ | h
          · exact Or.inl ⟨it, by simp [hit], h⟩
          · exact Or.inr h

/-- Across a whole drain loop the current document stays present, keeps its
length and positional identities, and every position whose identity is not
among the batch's identities is untouched. -/
theorem drainLoop_doc_preserved (uuid : Nat → String) (now : Nat)
    (client : String → Nat → Except RemoteError ItemDetails) :
    ∀ (items : List SuggestionItem) (i : Nat) (st : ReportState)
      (doc0 : SearchResult), st.doc = some doc0 →
      ∃ docN, (drainLoop uuid now client items i st).doc = some docN ∧
        docN.suggestions.length = doc0.suggestions.length ∧
        ∀ j (hj : j < doc0.suggestions.length)
          (hj' : j < docN.suggestions.length),
          (docN.suggestions.get ⟨j, hj'⟩).id
              = (doc0.suggestions.get ⟨j, hj⟩).id ∧
          ((∀ it ∈ items, (doc0.suggestions.get ⟨j, hj⟩).id ≠ it.id) →
            docN.suggestions.get ⟨j, hj'⟩ = doc0.suggestions.get ⟨j, hj⟩) := by
  intro items
  induction items with
  | nil =>
      intro i st doc0 hdoc
      refine ⟨doc0, by simp [drainLoop, hdoc], rfl, ?_⟩
      intro j hj hj'
      exact ⟨rfl, fun _ => rfl⟩
  | cons item rest ih =>
      intro i st doc0 hdoc
      rw [drainLoop_cons]
      have hdoc1 : (if i > 0 then
          { st with events := st.events ++ [Event.wait 4000] }
         else st : ReportState).doc = some doc0 := by
        by_cases hi : i > 0
        · rw [if_pos hi]
          exact hdoc
        · rw [if_neg hi]
          exact hdoc
      rcases processItem_doc_some uuid now client item 0 _ doc0 hdoc1 with
        ⟨doc1, hd1, hshape⟩
      have hdoc2 : ({ (processItem uuid now client item 0
          (if i > 0 then { st with events := st.events ++ [Event.wait 4000] }
           else st)) with progressCurrent := i + 1 } : ReportState).doc
          = some doc1 := hd1
      rcases ih (i + 1) _ doc1 hdoc2 with ⟨docN, hdN, hlenN, hposN⟩
      have hlen1 : doc1.suggestions.length = doc0.suggestions.length := by
        rcases hshape with rfl | ⟨dd, rfl⟩
        · rfl
        · exact (attachDetail_get doc0 item.id dd).1
      have hpos1 : ∀ j (hj : j < doc0.suggestions.length)
          (hj' : j < doc1.suggestions.length),
          (doc1.suggestions.get ⟨j, hj'⟩).id
              = (doc0.suggestions.get ⟨j, hj⟩).id ∧
          ((doc0.suggestions.get ⟨j, hj⟩).id ≠ item.id →
            doc1.suggestions.get ⟨j, hj'⟩ = doc0.suggestions.get ⟨j, hj⟩) := by
        intro j hj hj'
        rcases hshape with rfl | ⟨dd, rfl⟩
        · exact ⟨rfl, fun _ => rfl⟩
        · exact (attachDetail_get doc0 item.id dd).2 j hj hj'
      refine ⟨docN, hdN, by rw [hlenN, hlen1], ?_⟩
      intro j hj hj'
      have hj1 : j < doc1.suggestions.length := by
        rw [hlen1]
        exact hj
      rcases hpos1 j hj hj1 with ⟨hid1, hkeep1⟩
      rcases hposN j hj1 hj' with ⟨hidN, hkeepN⟩
      constructor
      · rw [hidN, hid1]
      · intro hall
        have h1 : doc1.suggestions.get ⟨j, hj1⟩
            = doc0.suggestions.get ⟨j, hj⟩ :=
          hkeep1 (hall item (by simp))
        have h2 : docN.suggestions.get ⟨j, hj'⟩
            = doc1.suggestions.get ⟨j, hj1⟩ := by
          apply hkeepN
          intro it hit
          rw [hid1]
          exact hall it (by simp [hit])
        rw [h2, h1]

/-- Unfolding of an actually started drain run. -/
theorem triggerAutoGeneration_eq (uuid : Nat → String) (now : Nat)
    (client : String → Nat → Except RemoteError ItemDetails)
    (items : List SuggestionItem) (st : ReportState)
    (h : st.isAutoGenerating = false) :
    triggerAutoGeneration uuid now client items st =
      addRLog uuid now LogType.system
        "Report Page: Generation Queue Complete" none
        { (drainLoop uuid now client items 0
            (addRLog uuid now LogType.system
              "Report Page: Auto-Generation Started"
              (some ("Queueing " ++ toString items.length ++
                " items with rate limiting..."))
              { st with isAutoGenerating := true, progressCurrent := 0,
                        progressTotal := items.length }))
          with isAutoGenerating := false } := by
  have hguard : ¬ (st.isAutoGenerating = true) := by simp [h]
  unfold triggerAutoGeneration
  rw [if_neg hguard]

/-- The report-page effect with a current document, no active run and at
least one item lacking details triggers a drain of exactly the items
lacking details. -/
theorem autoGenEffect_eq_trigger (uuid : Nat → String) (now : Nat)
    (client : String → Nat → Except RemoteError ItemDetails)
    (st : ReportState) (doc : SearchResult) (hdoc : st.doc = some doc)
    (hidle : st.isAutoGenerating = false)
    (hmiss : (doc.suggestions.filter fun s => s.details.isNone).length > 0) :
    autoGenEffect uuid now client st =
      triggerAutoGeneration uuid now client
        (doc.suggestions.filter fun s => s.details.isNone) st := by
  unfold autoGenEffect
  rw [hdoc]
  show (if st.isAutoGenerating = true then st else _) = _
  rw [hidle]
  show (if (doc.suggestions.filter fun s => s.details.isNone).length > 0
      then _ else st) = _
  rw [if_pos hmiss]

/-- The report-page effect with a current document, no active run and no
item lacking details is a no-op. -/
theorem autoGenEffect_eq_self (uuid : Nat → String) (now : Nat)
    (client : String → Nat → Except RemoteError ItemDetails)
    (st : ReportState) (doc : SearchResult) (hdoc : st.doc = some doc)
    (hidle : st.isAutoGenerating = false)
    (hmiss : ¬ (doc.suggestions.filter
      fun s => s.details.isNone).length > 0) :
    autoGenEffect uuid now client st = st := by
  unfold autoGenEffect
  rw [hdoc]
  show (if st.isAutoGenerating = true then st else _) = _
  rw [hidle]
  show (if (doc.suggestions.filter fun s => s.details.isNone).length > 0
      then _ else st) = _
  rw [if_neg hmiss]

/-- Every request issued by a drain run that actually starts is either a
pre-existing event or targets one of the batch items. -/
theorem trigger_events_requests (uuid : Nat → String) (now : Nat)
    (client : String → Nat → Except RemoteError ItemDetails)
    (items : List SuggestionItem) (st : ReportState)
    (hidle : st.isAutoGenerating = false) (rid : String) :
    Event.request rid ∈ (triggerAutoGeneration uuid now client items st).events →
    Event.request rid ∈ st.events ∨ ∃ it ∈ items, rid = it.id := by
  intro hev
  rw [triggerAutoGeneration_eq uuid now client items st hidle] at hev
  rcases drainLoop_events_shape uuid now client items 0
      (addRLog uuid now LogType.system
        "Report Page: Auto-Generation Started"
        (some ("Queueing " ++ toString items.length ++
          " items with rate limiting..."))
        { st with isAutoGenerating := true, progressCurrent := 0,
                  progressTotal := items.length }) with ⟨tail, he, hm⟩
  have hev' : Event.request rid ∈
      (drainLoop uuid now client items 0
        (addRLog uuid now LogType.system
          "Report Page: Auto-Generation Started"
          (some ("Queueing " ++ toString items.length ++
            " items with rate limiting..."))
          { st with isAutoGenerating := true, progressCurrent := 0,
                    progressTotal := items.length })).events := hev
  rw [he] at hev'
  have hSev : (addRLog uuid now LogType.system
      "Report Page: Auto-Generation Started"
      (some ("Queueing " ++ toString items.length ++
        " items with rate limiting..."))
      { st with isAutoGenerating := true, progressCurrent := 0,
                progressTotal := items.length }).events = st.events := rfl
  rw [hSev] at hev'
  rcases List.mem_append.mp hev' with h | h
  · exact Or.inl h
  · rcases hm _ h with ⟨it, hit, hreq⟩ | ⟨w, hw⟩
    · refine Or.inr ⟨it, hit, ?_⟩
      injection hreq
    · cases hw

/-- A drain run that actually starts keeps the current document present,
its length and positional identities, and leaves untouched every position
whose identity is not among the batch's identities. -/
theorem trigger_doc_preserved (uuid : Nat → String) (now : Nat)
    (client : String → Nat → Except RemoteError ItemDetails)
    (items : List SuggestionItem) (st : ReportState) (doc : SearchResult)
    (hidle : st.isAutoGenerating = false) (hdoc : st.doc = some doc) :
    ∃ docN, (triggerAutoGeneration uuid now client items st).doc
        = some docN ∧
      docN.suggestions.length = doc.suggestions.length ∧
      ∀ j (hj : j < doc.suggestions.length)
        (hj' : j < docN.suggestions.length),
        (docN.suggestions.get ⟨j, hj'⟩).id
            = (doc.suggestions.get ⟨j, hj⟩).id ∧
        ((∀ it ∈ items, (doc.suggestions.get ⟨j, hj⟩).id ≠ it.id) →
          docN.suggestions.get ⟨j, hj'⟩ = doc.suggestions.get ⟨j, hj⟩) := by
  rw [triggerAutoGeneration_eq uuid now client items st hidle]
  have hSdoc : (addRLog uuid now LogType.system
      "Report Page: Auto-Generation Started"
      (some ("Queueing " ++ toString items.length ++
        " items with rate limiting..."))
      { st with isAutoGenerating := true, progressCurrent := 0,
                progressTotal := items.length }).doc = some doc := hdoc
  rcases drainLoop_doc_preserved uuid now client items 0 _ doc hSdoc with
    ⟨docN, hdN, hlen, hpos⟩
  exact ⟨docN, hdN, hlen, hpos⟩

/-- A populated position's identity never occurs among the items lacking
details, provided identities are unique. -/
theorem populated_id_not_missing (doc : SearchResult)
    (hnd : (doc.suggestions.map (fun s => s.id)).Nodup)
    (j : Nat) (hj : j < doc.suggestions.length) (d : ItemDetails)
    (hdet : (doc.suggestions.get ⟨j, hj⟩).details = some d) :
    ∀ it ∈ doc.suggestions.filter (fun s => s.details.isNone),
      (doc.suggestions.get ⟨j, hj⟩).id ≠ it.id := by
  intro it hit heq
  have hmem : it ∈ doc.suggestions := List.mem_of_mem_filter hit
  have hnone : it.details.isNone = true := (List.mem_filter.mp hit).2
  rcases List.getElem_of_mem hmem with ⟨k, hk, hgk⟩
  have hjm : j < (doc.suggestions.map (fun s => s.id)).length := by simpa using hj
  have hkm : k < (doc.suggestions.map (fun s => s.id)).length := by simpa using hk
  have hids : (doc.suggestions.map (fun s => s.id))[j]
      = (doc.suggestions.map (fun s => s.id))[k] := by
    rw [List.getElem_map, List.getElem_map, hgk]
    rw [List.get_eq_getElem] at heq
    exact heq
  have hjk : j = k := (List.Nodup.getElem_inj_iff hnd).mp hids
  subst hjk
  rw [List.get_eq_getElem] at hdet
  rw [hgk] at hdet
  rw [hdet] at hnone
  simp at hnone

/-! Claim theorems. -/

/-- C5: attaching fetched details by item identity when no item of the
document matches the target id is a silent no-op: the document, and in
particular its suggestions sequence, is returned unchanged and no error is
produced (attachDetail is total). -/
theorem attachDetail_unmatched_noop (doc : SearchResult) (itemId : String)
    (d : ItemDetails) (h : ∀ s ∈ doc.suggestions, s.id ≠ itemId) :
    attachDetail doc itemId d = doc := by
  have hm : (doc.suggestions.map fun s =>
      if s.id = itemId then { s with details := some d } else s) =
      doc.suggestions := by
    have hc : (doc.suggestions.map fun s =>
        if s.id = itemId then { s with details := some d } else s) =
        doc.suggestions.map id := by
      apply List.map_congr_left
      intro a ha
      simp [h a ha]
    rw [hc, List.map_id]
  unfold attachDetail
  rw [hm]

/-- C5 witness: on a concrete two-item document and a non-matching id, the
patch returns the document unchanged. -/
theorem attachDetail_unmatched_noop_witness :
    attachDetail
      { id := "doc1", query := "q", timestamp := 0,
        suggestions :=
          [{ id := "s1", title := "t1", description := "d1", details := none },
           { id := "s2", title := "t2", description := "d2", details := none }],
        roastCommentary := "r", sources := ["src"],
        promptSuggestion := none, bestModel := none }
      "zz"
      { analysis := "a", steps := ["s"], risks := "k" } =
    { id := "doc1", query := "q", timestamp := 0,
      suggestions :=
        [{ id := "s1", title := "t1", description := "d1", details := none },
         { id := "s2", title := "t2", description := "d2", details := none }],
      roastCommentary := "r", sources := ["src"],
      promptSuggestion := none, bestModel := none } := by
  apply attachDetail_unmatched_noop
  intro s hs
  simp only [List.mem_cons, List.mem_singleton] at hs
  rcases hs with rfl | hs
  · decide
  · rcases hs with rfl | hs
    · decide
    · simp at hs

/-- C6: the load-more merge returns a new document whose suggestions are
exactly the prior items, in order, followed by the items built from the
response (same titles and descriptions, in response order), whose sources
are the prior sources concatenated with the response's sources, and whose
commentary, prompt-template and recommended-model fields are replaced with
the latest response's values; identity, query and timestamp are kept. -/
theorem appendPage_append_only (uuid : Nat → String) (k : Nat)
    (doc : SearchResult) (resp : GeminiResponseSchema) :
    (appendPage doc resp (mkNewSuggestions uuid k resp.suggestions)).suggestions
        = doc.suggestions ++ mkNewSuggestions uuid k resp.suggestions ∧
    (appendPage doc resp
        (mkNewSuggestions uuid k resp.suggestions)).suggestions.take
        doc.suggestions.length = doc.suggestions ∧
    (appendPage doc resp (mkNewSuggestions uuid k resp.suggestions)).suggestions.map
        (fun s => (s.title, s.description))
      = doc.suggestions.map (fun s => (s.title, s.description)) ++
        resp.suggestions.map (fun b => (b.title, b.description)) ∧
    (appendPage doc resp (mkNewSuggestions uuid k resp.suggestions)).sources
        = doc.sources ++ resp.sources ∧
    (appendPage doc resp (mkNewSuggestions uuid k resp.suggestions)).roastCommentary
        = resp.roast ∧
    (appendPage doc resp (mkNewSuggestions uuid k resp.suggestions)).promptSuggestion
        = some resp.promptSuggestion ∧
    (appendPage doc resp (mkNewSuggestions uuid k resp.suggestions)).bestModel
        = some resp.bestModel ∧
    (appendPage doc resp (mkNewSuggestions uuid k resp.suggestions)).id = doc.id ∧
    (appendPage doc resp (mkNewSuggestions uuid k resp.suggestions)).query
        = doc.query ∧
    (appendPage doc resp (mkNewSuggestions uuid k resp.suggestions)).timestamp
        = doc.timestamp := by
  refine ⟨rfl, ?_, ?_, rfl, rfl, rfl, rfl, rfl, rfl, rfl⟩
  · exact List.take_left doc.suggestions (mkNewSuggestions uuid k resp.suggestions)
  · show (doc.suggestions ++ mkNewSuggestions uuid k resp.suggestions).map _ = _
    rw [List.map_append, mkNewSuggestions_titles]

/-- C7: history upsert is idempotent and keyed by document identity: it
preserves uniqueness of identities, repeated upserts of the same identity
keep the length constant, upserting the same document twice equals
upserting it once, a new identity is appended, and a present identity is
replaced in place with the length preserved. -/
theorem addToHistory_upsert_by_identity (d d' : SearchResult)
    (prev : List SearchResult) (hid : d'.id = d.id)
    (hnd : (prev.map (fun x => x.id)).Nodup) :
    ((addToHistory d prev).map (fun x => x.id)).Nodup ∧
    (addToHistory d' (addToHistory d prev)).length
        = (addToHistory d prev).length ∧
    addToHistory d (addToHistory d prev) = addToHistory d prev ∧
    (prev.findIdx? (fun p => decide (p.id = d.id)) = none →
      addToHistory d prev = prev ++ [d]) ∧
    (∀ i, prev.findIdx? (fun p => decide (p.id = d.id)) = some i →
      addToHistory d prev = prev.set i d ∧
      (addToHistory d prev).length = prev.length) := by
  refine ⟨?_, ?_, addToHistory_idem d prev, ?_, ?_⟩
  · cases h : prev.findIdx? (fun p => decide (p.id = d.id)) with
    | none =>
        have hids : ∀ x ∈ prev, x.id ≠ d.id := by
          intro x hx
          have := List.findIdx?_eq_none_iff.mp h x hx
          simpa using this
        unfold addToHistory
        rw [h, List.map_append]
        rw [List.nodup_append]
        refine ⟨hnd, by simp, ?_⟩
        intro a ha hb
        rcases List.mem_map.mp ha with ⟨x, hx, rfl⟩
        simp only [List.map_cons, List.map_nil, List.mem_singleton] at hb
        exact hids x hx hb
    | some i =>
        rcases List.findIdx?_eq_some_iff_getElem.mp h with ⟨hi, hpi, _⟩
        have hpi' : prev[i].id = d.id := by simpa using hpi
        unfold addToHistory
        rw [h]
        show (List.map (fun x => x.id) (prev.set i d)).Nodup
        rw [List.map_set]
        have hset : (prev.map (fun x => x.id)).set i d.id
            = prev.map (fun x => x.id) := by
          apply set_self_of_getElem _ _ _ (by simpa using hi)
          simp [List.getElem_map, hpi']
        rw [hset]
        exact hnd
  · apply addToHistory_length_of_mem
    exact ⟨d, mem_addToHistory_self d prev, hid.symm⟩
  · intro h
    unfold addToHistory
    rw [h]
  · intro i h
    constructor
    · unfold addToHistory
      rw [h]
    · unfold addToHistory
      rw [h, List.length_set]

/-- C7 witness: with a concrete two-entry history whose identities are
distinct, upserting a document with the first entry's identity keeps
identities unique, keeps the length constant across a repeated upsert of
the same identity, is idempotent, and replaces the first entry in place. -/
theorem addToHistory_upsert_by_identity_witness :
    (((addToHistory
        { id := "h1", query := "q9", timestamp := 5, suggestions := [],
          roastCommentary := "r9", sources := [], promptSuggestion := none,
          bestModel := none }
        [{ id := "h1", query := "q1", timestamp := 1, suggestions := [],
           roastCommentary := "r1", sources := [], promptSuggestion := none,
           bestModel := none },
         { id := "h2", query := "q2", timestamp := 2, suggestions := [],
           roastCommentary := "r2", sources := [], promptSuggestion := none,
           bestModel := none }]).map (fun x => x.id)).Nodup) := by
  have h := addToHistory_upsert_by_identity
    { id := "h1", query := "q9", timestamp := 5, suggestions := [],
      roastCommentary := "r9", sources := [], promptSuggestion := none,
      bestModel := none }
    { id := "h1", query := "q8", timestamp := 6, suggestions := [],
      roastCommentary := "r8", sources := [], promptSuggestion := none,
      bestModel := none }
    [{ id := "h1", query := "q1", timestamp := 1, suggestions := [],
       roastCommentary := "r1", sources := [], promptSuggestion := none,
       bestModel := none },
     { id := "h2", query := "q2", timestamp := 2, suggestions := [],
       roastCommentary := "r2", sources := [], promptSuggestion := none,
       bestModel := none }]
    (by decide) (by decide)
  exact h.1

/-- C8: details transition at most once from absent to present: items are
created without details; the automatic drain only issues requests for
items currently lacking details; the on-demand single-item path issues no
request and changes no shared state for an item whose details are present;
the enrichment patch leaves every non-target position untouched; a drain
run (the report-page effect) never clears or replaces a populated details
value when identities are unique; pagination append keeps every prior
position unchanged; the history upsert only stores the given document or
keeps prior entries, never altering items; and restore publishes the
history item exactly as stored. -/
theorem details_write_once (uuid : Nat → String) (now : Nat)
    (language : Language)
    (client : String → Nat → Except RemoteError ItemDetails) :
    (∀ (k : Nat) (l : List BroadSuggestion),
      ∀ s ∈ mkNewSuggestions uuid k l, s.details = none) ∧
    (∀ (st : ReportState) (doc : SearchResult) (rid : String),
      st.doc = some doc →
      Event.request rid ∈ (autoGenEffect uuid now client st).events →
      Event.request rid ∈ st.events ∨
        ∃ s ∈ doc.suggestions, s.id = rid ∧ s.details = none) ∧
    (∀ (response : Except RemoteError ItemDetails) (item : SuggestionItem)
      (st : HomeState) (d : ItemDetails), item.details = some d →
      (handleItemClick uuid now language response item st).netRequests
          = st.netRequests ∧
      (handleItemClick uuid now language response item st).currentResult
          = st.currentResult ∧
      (handleItemClick uuid now language response item st).history
          = st.history) ∧
    (∀ (doc : SearchResult) (tid : String) (dd : ItemDetails) (j : Nat)
      (hj : j < doc.suggestions.length)
      (hj' : j < (attachDetail doc tid dd).suggestions.length),
      (doc.suggestions.get ⟨j, hj⟩).id ≠ tid →
      (attachDetail doc tid dd).suggestions.get ⟨j, hj'⟩
          = doc.suggestions.get ⟨j, hj⟩) ∧
    (∀ (st : ReportState) (doc : SearchResult), st.doc = some doc →
      (doc.suggestions.map (fun s => s.id)).Nodup →
      ∃ doc', (autoGenEffect uuid now client st).doc = some doc' ∧
        doc'.suggestions.length = doc.suggestions.length ∧
        ∀ (j : Nat) (hj : j < doc.suggestions.length)
          (hj' : j < doc'.suggestions.length) (d : ItemDetails),
          (doc.suggestions.get ⟨j, hj⟩).details = some d →
          doc'.suggestions.get ⟨j, hj'⟩ = doc.suggestions.get ⟨j, hj⟩) ∧
    (∀ (doc : SearchResult) (resp : GeminiResponseSchema)
      (ns : List SuggestionItem) (j : Nat)
      (hj : j < doc.suggestions.length)
      (hj' : j < (appendPage doc resp ns).suggestions.length),
      (appendPage doc resp ns).suggestions.get ⟨j, hj'⟩
          = doc.suggestions.get ⟨j, hj⟩) ∧
    (∀ (d : SearchResult) (prev : List SearchResult) (x : SearchResult),
      x ∈ addToHistory d prev → x = d ∨ x ∈ prev) ∧
    (∀ (item : SearchResult) (st : HomeState),
      (handleRestore uuid now item st).currentResult = some item) := by
  refine ⟨?_, ?_, ?_, ?_, ?_, ?_, ?_, ?_⟩
  · exact fun k l => mkNewSuggestions_details_none uuid k l
  · intro st doc rid hdoc hev
    by_cases hgen : st.isAutoGenerating = true
    · have heq : autoGenEffect uuid now client st = st := by
        simp [autoGenEffect, hdoc, hgen]
      rw [heq] at hev
      exact Or.inl hev
    · have hgen' : st.isAutoGenerating = false := by
        rw [Bool.not_eq_true] at hgen
        exact hgen
      by_cases hmiss :
          (doc.suggestions.filter fun s => s.details.isNone).length > 0
      · rw [autoGenEffect_eq_trigger uuid now client st doc hdoc hgen'
          hmiss] at hev
        rcases trigger_events_requests uuid now client _ st hgen' rid hev
          with h | ⟨it, hit, hrid⟩
        · exact Or.inl h
        · refine Or.inr ⟨it, List.mem_of_mem_filter hit, hrid.symm, ?_⟩
          have := (List.mem_filter.mp hit).2
          simpa using this
      · rw [autoGenEffect_eq_self uuid now client st doc hdoc hgen'
          hmiss] at hev
        exact Or.inl hev
  · intro response item st d hd
    have hds : item.details.isSome = true := by simp [hd]
    by_cases hload : st.loadingItemId.isSome = true
    · simp [handleItemClick, hload]
    · simp [handleItemClick, hload, hds]
  · intro doc tid dd j hj hj'
    exact ((attachDetail_get doc tid dd).2 j hj hj').2
  · intro st doc hdoc hnd
    by_cases hgen : st.isAutoGenerating = true
    · have heq : autoGenEffect uuid now client st = st := by
        simp [autoGenEffect, hdoc, hgen]
      rw [heq, hdoc]
      exact ⟨doc, rfl, rfl, fun j hj hj' d _ => rfl⟩
    · have hgen' : st.isAutoGenerating = false := by
        rw [Bool.not_eq_true] at hgen
        exact hgen
      by_cases hmiss :
          (doc.suggestions.filter fun s => s.details.isNone).length > 0
      · rw [autoGenEffect_eq_trigger uuid now client st doc hdoc hgen'
          hmiss]
        rcases trigger_doc_preserved uuid now client _ st doc hgen' hdoc
          with ⟨docN, hdN, hlen, hpos⟩
        refine ⟨docN, hdN, hlen, ?_⟩
        intro j hj hj' d hdet
        exact (hpos j hj hj').2
          (populated_id_not_missing doc hnd j hj d hdet)
      · rw [autoGenEffect_eq_self uuid now client st doc hdoc hgen' hmiss,
          hdoc]
        exact ⟨doc, rfl, rfl, fun j hj hj' d _ => rfl⟩
  · intro doc resp ns j hj hj'
    show (doc.suggestions ++ ns).get ⟨j, hj'⟩ = doc.suggestions.get ⟨j, hj⟩
    rw [List.get_eq_getElem, List.get_eq_getElem]
    exact List.getElem_append_left hj
  · intro d prev x hx
    unfold addToHistory at hx
    cases h : prev.findIdx? (fun p => decide (p.id = d.id)) with
    | none =>
        rw [h] at hx
        rcases List.mem_append.mp hx with hx | hx
        · exact Or.inr hx
        · simp only [List.mem_singleton] at hx
          exact Or.inl hx
    | some i =>
        rw [h] at hx
        rcases List.mem_or_eq_of_mem_set hx with hx | hx
        · exact Or.inr hx
        · exact Or.inl hx
  · intro item st
    rfl

/-- C8 witness: clicking a concrete item whose details are already present
issues no request and leaves the current result untouched, and restoring a
concrete history item publishes it exactly. -/
theorem details_write_once_witness :
    (handleItemClick (fun n => toString n) 4 Language.en
        (Except.ok { analysis := "x", steps := [], risks := "y" })
        { id := "s1", title := "t1", description := "d1",
          details := some { analysis := "a", steps := ["s"], risks := "r" } }
        { query := "q", attachment := none, currentResult := none,
          history := [], logs := [], error := none, isLoading := false,
          loadingItemId := none, selectedItem := none, isModalOpen := false,
          showAttachMenu := false, netRequests := [],
          fresh := 0 }).netRequests = [] ∧
    (handleRestore (fun n => toString n) 4
        { id := "doc7", query := "q7", timestamp := 7,
          suggestions := [], roastCommentary := "r7", sources := [],
          promptSuggestion := none, bestModel := none }
        { query := "q", attachment := none, currentResult := none,
          history := [], logs := [], error := none, isLoading := false,
          loadingItemId := none, selectedItem := none, isModalOpen := false,
          showAttachMenu := false, netRequests := [],
          fresh := 0 }).currentResult
      = some
          { id := "doc7", query := "q7", timestamp := 7,
            suggestions := [], roastCommentary := "r7", sources := [],
            promptSuggestion := none, bestModel := none } := by
  constructor
  · exact ((details_write_once (fun n => toString n) 4 Language.en
      (fun _ _ => Except.error { status := none, message := "" })).2.2.1
      (Except.ok { analysis := "x", steps := [], risks := "y" })
      { id := "s1", title := "t1", description := "d1",
        details := some { analysis := "a", steps := ["s"], risks := "r" } }
      { query := "q", attachment := none, currentResult := none,
        history := [], logs := [], error := none, isLoading := false,
        loadingItemId := none, selectedItem := none, isModalOpen := false,
        showAttachMenu := false, netRequests := [], fresh := 0 }
      { analysis := "a", steps := ["s"], risks := "r" } rfl).1
  · exact (details_write_once (fun n => toString n) 4 Language.en
      (fun _ _ => Except.error { status := none, message := "" })).2.2.2.2.2.2.2
      { id := "doc7", query := "q7", timestamp := 7,
        suggestions := [], roastCommentary := "r7", sources := [],
        promptSuggestion := none, bestModel := none }
      { query := "q", attachment := none, currentResult := none,
        history := [], logs := [], error := none, isLoading := false,
        loadingItemId := none, selectedItem := none, isModalOpen := false,
        showAttachMenu := false, netRequests := [], fresh := 0 }

/-- C9: a file whose payload exceeds 5 * 1024 * 1024 bytes is rejected
before staging: the attachment, history, current result and issued network
requests are unchanged and a user-correctable error is surfaced; a file at
or below the ceiling is staged as the attachment with the error cleared and
still no network request. -/
theorem handleFileSelect_size_ceiling (language : Language) (f : FileInput)
    (st : HomeState) :
    (f.size > maxFileSize →
      (handleFileSelect language (some f) st).attachment = st.attachment ∧
      (handleFileSelect language (some f) st).netRequests = st.netRequests ∧
      (handleFileSelect language (some f) st).error.isSome = true ∧
      (handleFileSelect language (some f) st).history = st.history ∧
      (handleFileSelect language (some f) st).currentResult
          = st.currentResult) ∧
    (f.size ≤ maxFileSize →
      (handleFileSelect language (some f) st).attachment =
        some { type := AttachmentType.file, content := f.base64Content,
               mimeType := some f.mimeType, name := some f.name } ∧
      (handleFileSelect language (some f) st).error = none ∧
      (handleFileSelect language (some f) st).netRequests = st.netRequests) := by
  constructor
  · intro h
    have h' : f.size > 5 * 1024 * 1024 := h
    simp only [handleFileSelect, if_pos h']
    simp
  · intro h
    have h' : ¬ f.size > 5 * 1024 * 1024 := by
      unfold maxFileSize at h
      omega
    simp only [handleFileSelect, if_neg h']
    simp

/-- C1 (behaviour of the code at the claim's own scenario): for a
single-item batch whose detail request fails rate-limited exactly twice and
then succeeds, the run issues three requests with backoff waits of 14000 ms
and then 16000 ms — not 12000 ms and then 14000 ms as the claim and the
source comment state — because the retry counter is incremented before
12000 + retries * 2000 is computed; the item does succeed on the third
attempt and its details are attached. -/
theorem backoff_waits_at_failing_input :
    (triggerAutoGeneration (fun n => toString n) 0
        (fun _ n => if n < 2 then
            Except.error
              { status := some 429,
                message := "You exceeded your current quota" }
          else
            Except.ok { analysis := "a", steps := ["s1"], risks := "r1" })
        [{ id := "i1", title := "t1", description := "d1", details := none }]
        { doc := some
            { id := "doc1", query := "q", timestamp := 0,
              suggestions :=
                [{ id := "i1", title := "t1", description := "d1",
                   details := none }],
              roastCommentary := "r", sources := [], promptSuggestion := none,
              bestModel := none },
          history := [], logs := [], events := [], isAutoGenerating := false,
          progressCurrent := 0, progressTotal := 0, fresh := 0 }).events
      = [Event.request "i1", Event.wait 14000, Event.request "i1",
         Event.wait 16000, Event.request "i1"] ∧
    (triggerAutoGeneration (fun n => toString n) 0
        (fun _ n => if n < 2 then
            Except.error
              { status := some 429,
                message := "You exceeded your current quota" }
          else
            Except.ok { analysis := "a", steps := ["s1"], risks := "r1" })
        [{ id := "i1", title := "t1", description := "d1", details := none }]
        { doc := some
            { id := "doc1", query := "q", timestamp := 0,
              suggestions :=
                [{ id := "i1", title := "t1", description := "d1",
                   details := none }],
              roastCommentary := "r", sources := [], promptSuggestion := none,
              bestModel := none },
          history := [], logs := [], events := [], isAutoGenerating := false,
          progressCurrent := 0, progressTotal := 0, fresh := 0 }).doc
      = some
          { id := "doc1", query := "q", timestamp := 0,
            suggestions :=
              [{ id := "i1", title := "t1", description := "d1",
                 details := some
                   { analysis := "a", steps := ["s1"], risks := "r1" } }],
            roastCommentary := "r", sources := [], promptSuggestion := none,
            bestModel := none } := by
  constructor <;>
    simp [triggerAutoGeneration, drainLoop, processItem, addRLog,
      updateResult, attachDetail, addToHistory, isRateLimitError,
      strIncludes, listIncludes, listStartsWith, maxRetries]

/-- C2: for a non-empty batch and a remote client that always succeeds at
the first attempt, one drain run produces exactly the expected trace: one
request per batch item in batch order, a 4000 ms cooldown wait before each
item after the first (so consecutive requests are spaced by the cooldown),
and the run completes with progress completed = total = batch length and
the guard released. -/
theorem drain_run_cadence (uuid : Nat → String) (now : Nat)
    (client : String → Nat → Except RemoteError ItemDetails)
    (items : List SuggestionItem) (st : ReportState)
    (hne : items ≠ [])
    (hidle : st.isAutoGenerating = false)
    (hev : st.events = [])
    (hok : ∀ it ∈ items, ∃ d, client it.id 0 = Except.ok d) :
    (triggerAutoGeneration uuid now client items st).events
        = happyTrace items 0 ∧
    (triggerAutoGeneration uuid now client items st).events.filter
        Event.isRequest = items.map (fun it => Event.request it.id) ∧
    (triggerAutoGeneration uuid now client items st).progressCurrent
        = items.length ∧
    (triggerAutoGeneration uuid now client items st).progressTotal
        = items.length ∧
    (triggerAutoGeneration uuid now client items st).isAutoGenerating
        = false := by
  have hguard : ¬ (st.isAutoGenerating = true) := by simp [hidle]
  have h1 : triggerAutoGeneration uuid now client items st =
      addRLog uuid now LogType.system "Report Page: Generation Queue Complete"
        none
        { (drainLoop uuid now client items 0
            (addRLog uuid now LogType.system
              "Report Page: Auto-Generation Started"
              (some ("Queueing " ++ toString items.length ++
                " items with rate limiting..."))
              { st with isAutoGenerating := true, progressCurrent := 0,
                        progressTotal := items.length }))
          with isAutoGenerating := false } := by
    unfold triggerAutoGeneration
    rw [if_neg hguard]
  rw [h1]
  dsimp only [addRLog]
  refine ⟨?_, ?_, ?_, ?_, rfl⟩
  · rw [(drainLoop_all_ok uuid now client items 0 _ hok).1]
    dsimp only
    rw [hev]
    simp
  · rw [(drainLoop_all_ok uuid now client items 0 _ hok).1]
    dsimp only
    rw [hev]
    simp only [List.nil_append]
    exact happyTrace_requests items 0
  · rw [(drainLoop_all_ok uuid now client items 0 _ hok).2.2.2]
    rw [if_neg hne]
    omega
  · rw [(drainLoop_all_ok uuid now client items 0 _ hok).2.2.1]

/-- C2 witness: a concrete two-item batch against an always-succeeding
client yields the trace request, 4000 ms wait, request, and finishes with
progress 2 of 2. -/
theorem drain_run_cadence_witness :
    (triggerAutoGeneration (fun n => toString n) 3
        (fun _ _ => Except.ok { analysis := "a", steps := ["s"], risks := "r" })
        [{ id := "i1", title := "t1", description := "d1", details := none },
         { id := "i2", title := "t2", description := "d2", details := none }]
        { doc := none, history := [], logs := [], events := [],
          isAutoGenerating := false, progressCurrent := 0,
          progressTotal := 0, fresh := 0 }).events
      = [Event.request "i1", Event.wait 4000, Event.request "i2"] ∧
    (triggerAutoGeneration (fun n => toString n) 3
        (fun _ _ => Except.ok { analysis := "a", steps := ["s"], risks := "r" })
        [{ id := "i1", title := "t1", description := "d1", details := none },
         { id := "i2", title := "t2", description := "d2", details := none }]
        { doc := none, history := [], logs := [], events := [],
          isAutoGenerating := false, progressCurrent := 0,
          progressTotal := 0, fresh := 0 }).progressCurrent = 2 ∧
    (triggerAutoGeneration (fun n => toString n) 3
        (fun _ _ => Except.ok { analysis := "a", steps := ["s"], risks := "r" })
        [{ id := "i1", title := "t1", description := "d1", details := none },
         { id := "i2", title := "t2", description := "d2", details := none }]
        { doc := none, history := [], logs := [], events := [],
          isAutoGenerating := false, progressCurrent := 0,
          progressTotal := 0, fresh := 0 }).progressTotal = 2 := by
  have h := drain_run_cadence (fun n => toString n) 3
    (fun _ _ => Except.ok { analysis := "a", steps := ["s"], risks := "r" })
    [{ id := "i1", title := "t1", description := "d1", details := none },
     { id := "i2", title := "t2", description := "d2", details := none }]
    { doc := none, history := [], logs := [], events := [],
      isAutoGenerating := false, progressCurrent := 0,
      progressTotal := 0, fresh := 0 }
    (List.cons_ne_nil _ _) rfl rfl
    (fun it _ =>
      ⟨{ analysis := "a", steps := ["s"], risks := "r" }, rfl⟩)
  refine ⟨?_, h.2.2.1, h.2.2.2.1⟩
  rw [h.1]
  rfl

/-- C3: an item whose detail request fails with an error not classified as
rate-limited is abandoned after exactly one attempt: one request, no
backoff wait, one error log entry, and the document and history untouched
(so the loop proceeds to the remaining items); and in a concrete
three-item batch where only the third item fails this way, the run still
issues one request per item at the normal cadence and the final document
has details absent only for item 3. -/
theorem nonratelimit_failure_abandons (uuid : Nat → String) (now : Nat)
    (client : String → Nat → Except RemoteError ItemDetails)
    (item : SuggestionItem) (st : ReportState) (e : RemoteError)
    (hc : client item.id 0 = Except.error e)
    (hrl : isRateLimitError e = false) :
    (processItem uuid now client item 0 st =
      { st with
        events := st.events ++ [Event.request item.id],
        logs := st.logs ++
          [{ id := uuid st.fresh, timestamp := now, type := LogType.error,
             message := "Failed to generate: " ++ item.title,
             details := some e.message }],
        fresh := st.fresh + 1 }) ∧
    (triggerAutoGeneration (fun n => toString n) 0
        (fun s _ => if s = "i3" then
            Except.error
              { status := some 500, message := "internal server error" }
          else
            Except.ok { analysis := "a", steps := ["s1"], risks := "r1" })
        [{ id := "i1", title := "t1", description := "d1", details := none },
         { id := "i2", title := "t2", description := "d2", details := none },
         { id := "i3", title := "t3", description := "d3", details := none }]
        { doc := some
            { id := "doc1", query := "q", timestamp := 0,
              suggestions :=
                [{ id := "i1", title := "t1", description := "d1",
                   details := none },
                 { id := "i2", title := "t2", description := "d2",
                   details := none },
                 { id := "i3", title := "t3", description := "d3",
                   details := none }],
              roastCommentary := "r", sources := [], promptSuggestion := none,
              bestModel := none },
          history := [], logs := [], events := [], isAutoGenerating := false,
          progressCurrent := 0, progressTotal := 0, fresh := 0 }).events
      = [Event.request "i1", Event.wait 4000, Event.request "i2",
         Event.wait 4000, Event.request "i3"] ∧
    (triggerAutoGeneration (fun n => toString n) 0
        (fun s _ => if s = "i3" then
            Except.error
              { status := some 500, message := "internal server error" }
          else
            Except.ok { analysis := "a", steps := ["s1"], risks := "r1" })
        [{ id := "i1", title := "t1", description := "d1", details := none },
         { id := "i2", title := "t2", description := "d2", details := none },
         { id := "i3", title := "t3", description := "d3", details := none }]
        { doc := some
            { id := "doc1", query := "q", timestamp := 0,
              suggestions :=
                [{ id := "i1", title := "t1", description := "d1",
                   details := none },
                 { id := "i2", title := "t2", description := "d2",
                   details := none },
                 { id := "i3", title := "t3", description := "d3",
                   details := none }],
              roastCommentary := "r", sources := [], promptSuggestion := none,
              bestModel := none },
          history := [], logs := [], events := [], isAutoGenerating := false,
          progressCurrent := 0, progressTotal := 0, fresh := 0 }).doc
      = some
          { id := "doc1", query := "q", timestamp := 0,
            suggestions :=
              [{ id := "i1", title := "t1", description := "d1",
                 details := some
                   { analysis := "a", steps := ["s1"], risks := "r1" } },
               { id := "i2", title := "t2", description := "d2",
                 details := some
                   { analysis := "a", steps := ["s1"], risks := "r1" } },
               { id := "i3", title := "t3", description := "d3",
                 details := none }],
            roastCommentary := "r", sources := [], promptSuggestion := none,
            bestModel := none } := by
  refine ⟨?_, ?_, ?_⟩
  · exact processItem_abandon uuid now client item 0 st
      (by unfold maxRetries; omega) e hc hrl
  · simp [triggerAutoGeneration, drainLoop, processItem, addRLog,
      updateResult, attachDetail, addToHistory, isRateLimitError,
      strIncludes, listIncludes, listStartsWith, maxRetries]
  · simp [triggerAutoGeneration, drainLoop, processItem, addRLog,
      updateResult, attachDetail, addToHistory, isRateLimitError,
      strIncludes, listIncludes, listStartsWith, maxRetries]

/-- C3 witness: a concrete single attempt that fails with a non-rate-limit
error records exactly one request, no wait, and one error log entry. -/
theorem nonratelimit_failure_abandons_witness :
    processItem (fun _ => "u") 5
      (fun _ _ => Except.error
        { status := some 500, message := "internal server error" })
      { id := "i9", title := "t9", description := "d9", details := none } 0
      { doc := none, history := [], logs := [], events := [],
        isAutoGenerating := true, progressCurrent := 0, progressTotal := 0,
        fresh := 0 }
      = { doc := none, history := [],
          logs := [{ id := "u", timestamp := 5, type := LogType.error,
                     message := "Failed to generate: t9",
                     details := some "internal server error" }],
          events := [Event.request "i9"], isAutoGenerating := true,
          progressCurrent := 0, progressTotal := 0, fresh := 1 } :=
  (nonratelimit_failure_abandons (fun _ => "u") 5
    (fun _ _ => Except.error
      { status := some 500, message := "internal server error" })
    { id := "i9", title := "t9", description := "d9", details := none }
    { doc := none, history := [], logs := [], events := [],
      isAutoGenerating := true, progressCurrent := 0, progressTotal := 0,
      fresh := 0 }
    { status := some 500, message := "internal server error" }
    rfl (by decide)).1

/-- C4: at most one drain run is active at a time: while a run is in
progress (isAutoGenerating is set), triggering auto-generation for a new
batch returns the state unchanged (the submission is ignored, not queued:
no event, request, log or document change), and re-entering the report
screen (the mount/update effect) is likewise a no-op. -/
theorem triggerAutoGeneration_at_most_one_run (uuid : Nat → String)
    (now : Nat) (client : String → Nat → Except RemoteError ItemDetails)
    (items : List SuggestionItem) (st : ReportState)
    (h : st.isAutoGenerating = true) :
    triggerAutoGeneration uuid now client items st = st ∧
    autoGenEffect uuid now client st = st := by
  constructor
  · unfold triggerAutoGeneration
    rw [h]
    simp
  · cases hdoc : st.doc with
    | none => simp [autoGenEffect, hdoc]
    | some doc =>
        simp [autoGenEffect, hdoc, h, triggerAutoGeneration]

/-- C4 witness: on a concrete state with an active run and a document
still missing details, both the trigger and the effect leave the state
unchanged. -/
theorem triggerAutoGeneration_at_most_one_run_witness :
    triggerAutoGeneration (fun n => toString n) 0
      (fun _ _ => Except.error { status := some 500, message := "boom" })
      [{ id := "s1", title := "t1", description := "d1", details := none }]
      { doc := some
          { id := "doc1", query := "q", timestamp := 0,
            suggestions :=
              [{ id := "s1", title := "t1", description := "d1",
                 details := none }],
            roastCommentary := "r", sources := [], promptSuggestion := none,
            bestModel := none },
        history := [], logs := [], events := [], isAutoGenerating := true,
        progressCurrent := 0, progressTotal := 1, fresh := 0 } =
      { doc := some
          { id := "doc1", query := "q", timestamp := 0,
            suggestions :=
              [{ id := "s1", title := "t1", description := "d1",
                 details := none }],
            roastCommentary := "r", sources := [], promptSuggestion := none,
            bestModel := none },
        history := [], logs := [], events := [], isAutoGenerating := true,
        progressCurrent := 0, progressTotal := 1, fresh := 0 } :=
  (triggerAutoGeneration_at_most_one_run (fun n => toString n) 0
    (fun _ _ => Except.error { status := some 500, message := "boom" })
    [{ id := "s1", title := "t1", description := "d1", details := none }]
    { doc := some
        { id := "doc1", query := "q", timestamp := 0,
          suggestions :=
            [{ id := "s1", title := "t1", description := "d1",
               details := none }],
          roastCommentary := "r", sources := [], promptSuggestion := none,
          bestModel := none },
      history := [], logs := [], events := [], isAutoGenerating := true,
      progressCurrent := 0, progressTotal := 1, fresh := 0 }
    rfl).1

/-- C10: when the broad-analysis call fails, the submit/load-more handler
is atomic with respect to shared state: the current result document, the
history, the query and the staged attachment are exactly as before the
call; the only effects are the surfaced error message and the appended log
entries (the pre-call info entry and the error entry), with loading
cleared and exactly the one network request recorded. -/
theorem handleSearch_failure_atomic (uuid : Nat → String) (now : Nat)
    (err : RemoteError) (isLoadMore : Bool) (st : HomeState)
    (h : st.query.trim ≠ "" ∨ st.attachment ≠ none) :
    (handleSearch uuid now (Except.error err) isLoadMore st).currentResult
        = st.currentResult ∧
    (handleSearch uuid now (Except.error err) isLoadMore st).history
        = st.history ∧
    (handleSearch uuid now (Except.error err) isLoadMore st).error
        = some (searchErrorMessage err) ∧
    (handleSearch uuid now (Except.error err) isLoadMore st).logs
        = st.logs ++
          [{ id := uuid st.fresh, timestamp := now, type := LogType.info,
             message := if isLoadMore then "Loading more for: " ++ st.query
               else "New search: " ++ st.query,
             details := match st.attachment with
               | some a => some ("With attachment: " ++ a.name.getD "undefined")
               | none => none },
           { id := uuid (st.fresh + 1), timestamp := now,
             type := LogType.error, message := "Analysis Failed",
             details := some err.message }] ∧
    (handleSearch uuid now (Except.error err) isLoadMore st).attachment
        = st.attachment ∧
    (handleSearch uuid now (Except.error err) isLoadMore st).query
        = st.query ∧
    (handleSearch uuid now (Except.error err) isLoadMore st).isLoading
        = false ∧
    (handleSearch uuid now (Except.error err) isLoadMore st).netRequests
        = st.netRequests ++ ["analyzeIssue"] := by
  have hg : ¬ ((st.query.trim = "" && st.attachment = none) = true) := by
    rcases h with h | h <;> simp [h]
  unfold handleSearch
  rw [if_neg hg]
  refine ⟨rfl, rfl, rfl, ?_, rfl, rfl, rfl, rfl⟩
  show (st.logs ++ [_]) ++ [_] = st.logs ++ _
  rw [List.append_assoc]
  rfl

/-- C10 witness: a concrete failing search leaves the current result and
history unchanged and surfaces the error message. -/
theorem handleSearch_failure_atomic_witness :
    (handleSearch (fun n => toString n) 7
        (Except.error { status := some 500, message := "boom" }) false
        { query := "",
          attachment := some
            { type := AttachmentType.link, content := "http://x",
              mimeType := none, name := some "x" },
          currentResult := none,
          history := [], logs := [], error := none, isLoading := false,
          loadingItemId := none, selectedItem := none, isModalOpen := false,
          showAttachMenu := false, netRequests := [], fresh := 0 }).currentResult
      = none ∧
    (handleSearch (fun n => toString n) 7
        (Except.error { status := some 500, message := "boom" }) false
        { query := "",
          attachment := some
            { type := AttachmentType.link, content := "http://x",
              mimeType := none, name := some "x" },
          currentResult := none,
          history := [], logs := [], error := none, isLoading := false,
          loadingItemId := none, selectedItem := none, isModalOpen := false,
          showAttachMenu := false, netRequests := [], fresh := 0 }).history
      = [] ∧
    (handleSearch (fun n => toString n) 7
        (Except.error { status := some 500, message := "boom" }) false
        { query := "",
          attachment := some
            { type := AttachmentType.link, content := "http://x",
              mimeType := none, name := some "x" },
          currentResult := none,
          history := [], logs := [], error := none, isLoading := false,
          loadingItemId := none, selectedItem := none, isModalOpen := false,
          showAttachMenu := false, netRequests := [], fresh := 0 }).error
      = some "boom" := by
  have h := handleSearch_failure_atomic (fun n => toString n) 7
    { status := some 500, message := "boom" } false
    { query := "",
      attachment := some
        { type := AttachmentType.link, content := "http://x",
          mimeType := none, name := some "x" },
      currentResult := none,
      history := [], logs := [], error := none, isLoading := false,
      loadingItemId := none, selectedItem := none, isModalOpen := false,
      showAttachMenu := false, netRequests := [], fresh := 0 }
    (Or.inr (by decide))
  exact ⟨h.1, h.2.1, h.2.2.1⟩

/-- C9 witness: a file one byte over the ceiling is rejected with the
attachment unchanged, and a file exactly at the ceiling is staged. -/
theorem handleFileSelect_size_ceiling_witness :
    (handleFileSelect Language.en
        (some { size := 5 * 1024 * 1024 + 1, base64Content := "AAAA",
                mimeType := "image/png", name := "big.png" })
        { query := "", attachment := none, currentResult := none,
          history := [], logs := [], error := none, isLoading := false,
          loadingItemId := none, selectedItem := none, isModalOpen := false,
          showAttachMenu := true, netRequests := [], fresh := 0 }).attachment
      = none ∧
    (handleFileSelect Language.en
        (some { size := 5 * 1024 * 1024, base64Content := "AAAA",
                mimeType := "image/png", name := "ok.png" })
        { query := "", attachment := none, currentResult := none,
          history := [], logs := [], error := none, isLoading := false,
          loadingItemId := none, selectedItem := none, isModalOpen := false,
          showAttachMenu := true, netRequests := [], fresh := 0 }).error
      = none := by
  constructor
  · exact ((handleFileSelect_size_ceiling Language.en
      { size := 5 * 1024 * 1024 + 1, base64Content := "AAAA",
        mimeType := "image/png", name := "big.png" }
      { query := "", attachment := none, currentResult := none,
        history := [], logs := [], error := none, isLoading := false,
        loadingItemId := none, selectedItem := none, isModalOpen := false,
        showAttachMenu := true, netRequests := [], fresh := 0 }).1
      (by decide)).1
  · exact ((handleFileSelect_size_ceiling Language.en
      { size := 5 * 1024 * 1024, base64Content := "AAAA",
        mimeType := "image/png", name := "ok.png" }
      { query := "", attachment := none, currentResult := none,
        history := [], logs := [], error := none, isLoading := false,
        loadingItemId := none, selectedItem := none, isModalOpen := false,
        showAttachMenu := true, netRequests := [], fresh := 0 }).2
      (by decide)).2.1

end LD
